import Mathlib

/-!
Shallow embedding of `model/evolved.py` (Evolved Transformer).

Tensors are modelled as nested lists of rationals (floats as `ℚ`): a
3-d tensor `(batch, seq_len, dim)` is a `List (List (List ℚ))`.  Learned
submodules whose numerics the claims do not depend on (layer norms, attention,
linear/convolution chains inside the cells) are passed as function parameters;
operations the claims do depend on (`F.pad`, `transpose(1, 2)`, elementwise
sums, `nn.Conv1d` inside `GatedConvolution`, the mask/shift helpers of
`EvolvedTransformer`) are modelled concretely.  Python-level failures
(`TypeError`, `AttributeError`) are modelled with `Except String`.
-/

abbrev Vec := List ℚ

abbrev Mat := List Vec

abbrev Tensor3 := List Mat

abbrev BMask := List (List Bool)

/-- Shape predicate for a 2-d tensor: `s` rows, each of length `d`. -/
def MatShape (m : Mat) (s d : ℕ) : Prop :=
  m.length = s ∧ ∀ r ∈ m, r.length = d

/-- Shape predicate for a 3-d tensor `(b, s, d)`. -/
def HasShape3 (t : Tensor3) (b s d : ℕ) : Prop :=
  t.length = b ∧ ∀ m ∈ t, MatShape m s d

instance (m : Mat) (s d : ℕ) : Decidable (MatShape m s d) := by
  unfold MatShape; infer_instance

instance (t : Tensor3) (b s d : ℕ) : Decidable (HasShape3 t b s d) := by
  unfold HasShape3; infer_instance

/-- Size of the last dimension of a 3-d tensor, `t.size(-1)`. -/
def dimLast (t : Tensor3) : ℕ := ((t.headD []).headD []).length

/-- Size of dimension 1 of a 3-d tensor, `t.size(1)`. -/
def dim1 (t : Tensor3) : ℕ := (t.headD []).length

/-- Model of `x.transpose(1, 2)`: swaps the two inner dimensions of a
rectangular `(b, s, d)` tensor, giving `(b, d, s)`. -/
def transpose12 (t : Tensor3) : Tensor3 :=
  t.map fun m => (List.range (m.headD []).length).map fun j => m.map fun r => r.getD j 0

/-- Elementwise combination of two same-shaped 3-d tensors. -/
def map2T (f : ℚ → ℚ → ℚ) (a c : Tensor3) : Tensor3 :=
  List.zipWith (fun m1 m2 => List.zipWith (fun r1 r2 => List.zipWith f r1 r2) m1 m2) a c

/-- Elementwise sum, `a + b` on equal shapes. -/
def addT (a c : Tensor3) : Tensor3 := map2T (fun u v => u + v) a c

/-- Elementwise product, `a * b` on equal shapes. -/
def mulT (a c : Tensor3) : Tensor3 := map2T (fun u v => u * v) a c

/-- Model of `F.pad(input=t, pad=(0, k, 0, 0, 0, 0), mode=constant, value=v)`:
pads the last dimension on the right with `k` copies of `v`; a negative `k`
crops from the right, as in torch. -/
def padLast (t : Tensor3) (k : ℤ) (v : ℚ) : Tensor3 :=
  if 0 ≤ k then t.map (List.map fun r => r ++ List.replicate k.toNat v)
  else t.map (List.map fun r => r.take (r.length - (-k).toNat))

/-- Token lookup `self.tok_emb(x)`: applies the embedding table to every id of
an integer tensor `(batch, seq_len)`, giving `(batch, seq_len, emb_dim)`. -/
def tokLookup (table : ℤ → Vec) (x : List (List ℤ)) : Tensor3 :=
  x.map (List.map table)

/-- Scalar multiplication of a tensor, `t * c`. -/
def scaleT (c : ℚ) (t : Tensor3) : Tensor3 :=
  t.map (List.map (List.map fun q => q * c))

/-- Model of `x + self.pe[:, :x.size(1)]`: adds the first `x.size(1)` rows of
the positional table `pe` to every batch element of `x`. -/
def addPE (pe : Mat) (t : Tensor3) : Tensor3 :=
  t.map fun m => List.zipWith (fun r1 r2 => List.zipWith (fun u v => u + v) r1 r2) m (pe.take (dim1 t))

/-- Model of `PositionalEncoding.forward` (evolved.py lines 28-30):
`x = x + self.pe[:, :x.size(1)]; return self.dropout(x)`.  The sinusoidal
buffer `pe` (built with `sin`/`cos` at construction) and the stochastic
`dropout` module are parameters. -/
def PositionalEncoding.forward (dropout : Tensor3 → Tensor3) (pe : Mat) (x : Tensor3) : Tensor3 :=
  dropout (addPE pe x)

/-- Model of `Embeddings.forward` (evolved.py lines 49-55):
`out = self.tok_emb(x) * self.scale; out = self.pos_emb(out)`, then
`self.dropout(self.fc(out))` when `use_fc_layer` (i.e. `emb_dim != hidden_dim`)
and `self.dropout(out)` otherwise.  `pos_dropout` is the dropout owned by the
`PositionalEncoding` submodule, `dropout` the one owned by `Embeddings`. -/
def Embeddings.forward (tok_emb : ℤ → Vec) (scale : ℚ)
    (pos_dropout dropout : Tensor3 → Tensor3) (pe : Mat)
    (use_fc_layer : Bool) (fc : Tensor3 → Tensor3) (x : List (List ℤ)) : Tensor3 :=
  let out := scaleT scale (tokLookup tok_emb x)
  let out := PositionalEncoding.forward pos_dropout pe out
  if use_fc_layer then dropout (fc out) else dropout out

/-- Result type of `EvolvedTransformer.forward`: the `Out = namedtuple(Out,
logit loss)` record; a field never assigned is `none`. -/
structure TransformerOut where
  logit : Option Tensor3
  loss : Option ℚ

/-- Model of `EvolvedTransformer.shift_y` (evolved.py lines 387-389): the body
is a bare `return`, so it returns `None` (here `none`) for every input, never
the pair `(decoder_input, label)`. -/
def shift_y (y : List (List ℤ)) : Option (List (List ℤ) × List (List ℤ)) :=
  none

def padMaskTypeErrorMsg : String :=
  "TypeError: eq received an invalid combination of arguments, expected Tensor or Number"

/-- Model of `EvolvedTransformer.pad_mask` (evolved.py lines 377-378):
`return x == self.pad_mask`.  The right-hand side is the bound method
`pad_mask` itself, not the integer attribute `self.pad_id`; comparing a torch
tensor with a non-tensor, non-number operand raises `TypeError`, so no boolean
mask is ever produced. -/
def pad_mask (x : List (List ℤ)) : Except String BMask :=
  Except.error padMaskTypeErrorMsg

def decMaskAttributeErrorMsg : String :=
  "AttributeError: NoneType object has no attribute to"

/-- Model of `EvolvedTransformer.dec_mask` (evolved.py lines 381-384):
`sz = x.size(1); mask = None; return mask.to(self.device)`.  Since `mask`
is `None`, the `.to(device)` call raises `AttributeError`. -/
def dec_mask (x : List (List ℤ)) : Except String BMask :=
  let sz := (x.headD []).length
  let mask : Option BMask := none
  match mask with
  | none => Except.error decMaskAttributeErrorMsg
  | some m => Except.ok m

def unpackNoneTypeErrorMsg : String :=
  "TypeError: cannot unpack non-iterable NoneType object"

/-- Model of `EvolvedTransformer.forward` (evolved.py lines 392-405).  The
first statement `y, label = self.shift_y(y)` unpacks the `None` returned by
`shift_y`, raising `TypeError`; the remaining statements are modelled in the
(unreachable) `some` branch.  The encoder, decoder, generator and the
`nn.CrossEntropyLoss` criterion built in `__init__` are parameters; note the
body assigns `self.out.logit` but never `self.out.loss`. -/
def EvolvedTransformer.forward
    (encoder : List (List ℤ) → BMask → Tensor3)
    (decoder : List (List ℤ) → Tensor3 → BMask → BMask → Tensor3)
    (generator : Tensor3 → Tensor3)
    (criterion : Tensor3 → List (List ℤ) → ℚ)
    (x y : List (List ℤ)) : Except String TransformerOut :=
  match shift_y y with
  | none => Except.error unpackNoneTypeErrorMsg
  | some (y2, label) => do
      let e_mask ← pad_mask x
      let d_mask ← dec_mask y2
      let memory := encoder x e_mask
      let dec_out := decoder y2 memory e_mask d_mask
      let logit := generator dec_out
      pure (TransformerOut.mk (some logit) none)

/-- Parameter names of `EncoderCell.forward` (evolved.py line 148:
`def forward(self, x, e_mask)`). -/
def encoderCellForwardParamNames : List String :=
  [ "x", "e_mask" ]

def encoderKwargTypeErrorMsg : String :=
  "TypeError: forward got an unexpected keyword argument src_key_padding_mask"

/-- Model of `EvolvedEncoder.forward` (evolved.py lines 336-340): embeds `x`,
then runs `x = cell(x, src_key_padding_mask=e_mask)` over the cloned cells.
Calling a Python function with a keyword argument that is not among its
parameter names raises `TypeError`; the guard reproduces that check against
the parameter list of `EncoderCell.forward`. -/
def EvolvedEncoder.forward (embeddings : List (List ℤ) → Tensor3)
    (cells : List (Tensor3 → BMask → Tensor3))
    (x : List (List ℤ)) (e_mask : BMask) : Except String Tensor3 :=
  let x0 := embeddings x
  cells.foldlM
    (fun acc cell =>
      if "src_key_padding_mask" ∈ encoderCellForwardParamNames then Except.ok (cell acc e_mask)
      else Except.error encoderKwargTypeErrorMsg)
    x0

/-- Symmetric zero padding of one channel row, as `nn.Conv1d` applies before
sliding its kernel. -/
def zeroPadRow (p : ℕ) (r : Vec) : Vec :=
  List.replicate p 0 ++ r ++ List.replicate p 0

/-- One sliding-window product of `nn.Conv1d`: for an output channel with
kernel `wc : (in_channels, K)` over the zero-padded input `xp :
(in_channels, L + 2p)`, the correlation at time `t`. -/
def convWindow (wc : Mat) (xp : Mat) (t : ℕ) : ℚ :=
  ((wc.zip xp).map fun cr =>
    ((List.range cr.1.length).map fun k => cr.1.getD k 0 * cr.2.getD (t + k) 0).sum).sum

/-- Model of `nn.Conv1d` on one batch element in channel-first layout: input
`x : (in_channels, L)`, weight `w : (out_channels, in_channels, K)`, `bias :
(out_channels)`, padding `p`; output `(out_channels, L + 2p - K + 1)`. -/
def conv1d (w : List Mat) (bias : Vec) (K p : ℕ) (x : Mat) : Mat :=
  let lOut := (x.headD []).length + 2 * p + 1 - K
  let xp := x.map (zeroPadRow p)
  (w.zip bias).map fun cb => (List.range lOut).map fun t => cb.2 + convWindow cb.1 xp t

/-- GatedConvolution line 76: `convoluted = self.conv(x.transpose(1,
2)).transpose(1, 2)` with the kernel-3, padding-1 convolution producing
`2 * hidden_dim` output channels. -/
def GatedConvolution.convOut (w : List Mat) (bias : Vec) (x : Tensor3) : Tensor3 :=
  transpose12 ((transpose12 x).map (conv1d w bias 3 1))

/-- GatedConvolution line 77, first half of `convoluted.split(int(
convoluted.size(-1) / 2), -1)`: the value chunk. -/
def GatedConvolution.value (w : List Mat) (bias : Vec) (x : Tensor3) : Tensor3 :=
  (GatedConvolution.convOut w bias x).map
    (List.map (List.take (dimLast (GatedConvolution.convOut w bias x) / 2)))

/-- GatedConvolution line 77, second half of the split: the gate chunk. -/
def GatedConvolution.gate (w : List Mat) (bias : Vec) (x : Tensor3) : Tensor3 :=
  (GatedConvolution.convOut w bias x).map
    (List.map fun r =>
      List.take (dimLast (GatedConvolution.convOut w bias x) / 2)
        (List.drop (dimLast (GatedConvolution.convOut w bias x) / 2) r))

/-- Model of `GatedConvolution.forward` (evolved.py lines 62-79): transpose to
channel-first, convolve, transpose back, split the last dimension in half and
return `out * torch.sigmoid(gate)`.  The convolution weight `w`, `bias` and
the `sigmoid` function are parameters. -/
def GatedConvolution.forward (w : List Mat) (bias : Vec) (sigmoid : ℚ → ℚ)
    (x : Tensor3) : Tensor3 :=
  mulT (GatedConvolution.value w bias x)
    ((GatedConvolution.gate w bias x).map (List.map (List.map sigmoid)))

/-- Learned submodules of `EncoderCell` (evolved.py lines 109-145), passed as
functions on `(batch, seq, feature)` tensors; `right_net` and `sep_conv` act
in channel-first layout `(batch, channels, seq)` as in the source, where they
are wrapped in a `transpose(1, 2)` pair.  `ln0`-`ln3` are `layer_norms[0]`-
`layer_norms[3]`. -/
structure EncNets where
  glu : Tensor3 → Tensor3
  attention : Tensor3 → Tensor3 → Tensor3 → BMask → Tensor3
  mid_layer_norm : Tensor3 → Tensor3
  ln0 : Tensor3 → Tensor3
  ln1 : Tensor3 → Tensor3
  ln2 : Tensor3 → Tensor3
  ln3 : Tensor3 → Tensor3
  left_net : Tensor3 → Tensor3
  right_net : Tensor3 → Tensor3
  sep_conv : Tensor3 → Tensor3
  pff : Tensor3 → Tensor3

/-- EncoderCell Block 1 (evolved.py line 150): `self.glu(self.layer_norms[0](x))`. -/
def EncoderCell.B01 (N : EncNets) (x : Tensor3) : Tensor3 :=
  N.glu (N.ln0 x)

/-- EncoderCell Block 2 normed input (line 154): `self.layer_norms[1](B01_out)`. -/
def EncoderCell.B02_normed (N : EncNets) (x : Tensor3) : Tensor3 :=
  N.ln1 (EncoderCell.B01 N x)

/-- EncoderCell Block 2 left branch (line 156): `self.left_net(B02_normed)`. -/
def EncoderCell.left_out (N : EncNets) (x : Tensor3) : Tensor3 :=
  N.left_net (EncoderCell.B02_normed N x)

/-- EncoderCell Block 2 right branch before padding (line 157):
`self.right_net(B02_normed.transpose(1, 2)).transpose(1, 2)`. -/
def EncoderCell.right_raw (N : EncNets) (x : Tensor3) : Tensor3 :=
  transpose12 (N.right_net (transpose12 (EncoderCell.B02_normed N x)))

/-- EncoderCell Block 2 right branch after `F.pad` (lines 159-163): padded on
the last dimension up to the left branch width with constant `self.pad_id`. -/
def EncoderCell.right_padded (N : EncNets) (pad_id : ℚ) (x : Tensor3) : Tensor3 :=
  padLast (EncoderCell.right_raw N x)
    ((dimLast (EncoderCell.left_out N x) : ℤ) - (dimLast (EncoderCell.right_raw N x) : ℤ))
    pad_id

/-- EncoderCell Block 2 output (line 165): `left_out + right_out`. -/
def EncoderCell.B02 (N : EncNets) (pad_id : ℚ) (x : Tensor3) : Tensor3 :=
  addT (EncoderCell.left_out N x) (EncoderCell.right_padded N pad_id x)

/-- EncoderCell Block 3 after the separable convolution (lines 169-173):
`self.sep_conv(self.mid_layer_norm(B02_out).transpose(1, 2)).transpose(1, 2)`. -/
def EncoderCell.B03_conv (N : EncNets) (pad_id : ℚ) (x : Tensor3) : Tensor3 :=
  transpose12 (N.sep_conv (transpose12 (N.mid_layer_norm (EncoderCell.B02 N pad_id x))))

/-- EncoderCell Block 3 after `F.pad` (lines 175-179): padded on the last
dimension up to the Block 1 width with constant `self.pad_id`. -/
def EncoderCell.B03_padded (N : EncNets) (pad_id : ℚ) (x : Tensor3) : Tensor3 :=
  padLast (EncoderCell.B03_conv N pad_id x)
    ((dimLast (EncoderCell.B01 N x) : ℤ) - (dimLast (EncoderCell.B03_conv N pad_id x) : ℤ))
    pad_id

/-- EncoderCell Block 3 output (line 181): `B03_out += B01_out`. -/
def EncoderCell.B03 (N : EncNets) (pad_id : ℚ) (x : Tensor3) : Tensor3 :=
  addT (EncoderCell.B03_padded N pad_id x) (EncoderCell.B01 N x)

/-- EncoderCell Block 4 (lines 185-193): `B04_out = layer_norms[2](B03_out)`,
self-attention with `key_padding_mask = e_mask`, then `B04_out += attention_out`. -/
def EncoderCell.B04 (N : EncNets) (pad_id : ℚ) (x : Tensor3) (e_mask : BMask) : Tensor3 :=
  let n := N.ln2 (EncoderCell.B03 N pad_id x)
  addT n (N.attention n n n e_mask)

/-- Model of `EncoderCell.forward` (evolved.py lines 148-199), Blocks 5-6:
`out = layer_norms[3](B04_out); out = self.pff(out) + B04_out`. -/
def EncoderCell.forward (N : EncNets) (pad_id : ℚ) (x : Tensor3) (e_mask : BMask) : Tensor3 :=
  let b4 := EncoderCell.B04 N pad_id x e_mask
  addT (N.pff (N.ln3 b4)) b4

/-- Learned submodules of `DecoderCell` (evolved.py lines 203-254); `left_net`,
`right_net` and `sep_conv` act in channel-first layout as in the source.
`ln0`-`ln4` are `layer_norms[0]`-`layer_norms[4]`. -/
structure DecNets where
  mid_layer_norm : Tensor3 → Tensor3
  ln0 : Tensor3 → Tensor3
  ln1 : Tensor3 → Tensor3
  ln2 : Tensor3 → Tensor3
  ln3 : Tensor3 → Tensor3
  ln4 : Tensor3 → Tensor3
  left_attn : Tensor3 → Tensor3 → Tensor3 → BMask → Tensor3
  right_attn : Tensor3 → Tensor3 → Tensor3 → BMask → Tensor3
  self_attn : Tensor3 → Tensor3 → Tensor3 → BMask → Tensor3
  src_attn : Tensor3 → Tensor3 → Tensor3 → BMask → Tensor3
  left_net : Tensor3 → Tensor3
  right_net : Tensor3 → Tensor3
  sep_conv : Tensor3 → Tensor3
  pff : Tensor3 → Tensor3

/-- DecoderCell Block 1 (evolved.py lines 260-274): two parallel masked
self-attention branches over `layer_norms[0](x)`, summed. -/
def DecoderCell.B01 (D : DecNets) (x : Tensor3) (d_mask : BMask) : Tensor3 :=
  let n := D.ln0 x
  addT (D.left_attn n n n d_mask) (D.right_attn n n n d_mask)

/-- DecoderCell Block 2 normed input (line 278): `layer_norms[1](B01_out)`. -/
def DecoderCell.B02_normed (D : DecNets) (x : Tensor3) (d_mask : BMask) : Tensor3 :=
  D.ln1 (DecoderCell.B01 D x d_mask)

/-- DecoderCell Block 2 left branch (line 279):
`self.left_net(B02_out.transpose(1, 2)).transpose(1, 2)`. -/
def DecoderCell.left_out (D : DecNets) (x : Tensor3) (d_mask : BMask) : Tensor3 :=
  transpose12 (D.left_net (transpose12 (DecoderCell.B02_normed D x d_mask)))

/-- DecoderCell Block 2 right branch before padding (line 280):
`self.right_net(B02_out.transpose(1, 2)).transpose(1, 2)`. -/
def DecoderCell.right_raw (D : DecNets) (x : Tensor3) (d_mask : BMask) : Tensor3 :=
  transpose12 (D.right_net (transpose12 (DecoderCell.B02_normed D x d_mask)))

/-- DecoderCell Block 2 right branch after `F.pad` (lines 282-286): padded on
the last dimension up to the left branch width with constant `self.pad_id`. -/
def DecoderCell.right_padded (D : DecNets) (pad_id : ℚ) (x : Tensor3) (d_mask : BMask) : Tensor3 :=
  padLast (DecoderCell.right_raw D x d_mask)
    ((dimLast (DecoderCell.left_out D x d_mask) : ℤ) -
      (dimLast (DecoderCell.right_raw D x d_mask) : ℤ))
    pad_id

/-- DecoderCell Block 2 output (line 288): `left_out + right_out`. -/
def DecoderCell.B02 (D : DecNets) (pad_id : ℚ) (x : Tensor3) (d_mask : BMask) : Tensor3 :=
  addT (DecoderCell.left_out D x d_mask) (DecoderCell.right_padded D pad_id x d_mask)

/-- DecoderCell Block 3 (lines 291-293): mid layer norm, separable convolution
in channel-first layout, then `B03_out += B01_out`. -/
def DecoderCell.B03 (D : DecNets) (pad_id : ℚ) (x : Tensor3) (d_mask : BMask) : Tensor3 :=
  addT (transpose12 (D.sep_conv (transpose12 (D.mid_layer_norm (DecoderCell.B02 D pad_id x d_mask)))))
    (DecoderCell.B01 D x d_mask)

/-- DecoderCell Block 4 (lines 297-305): causally masked self-attention over
`layer_norms[2](B03_out)`, then `B04_out += B03_out`. -/
def DecoderCell.B04 (D : DecNets) (pad_id : ℚ) (x : Tensor3) (d_mask : BMask) : Tensor3 :=
  let n := D.ln2 (DecoderCell.B03 D pad_id x d_mask)
  addT (D.self_attn n n n d_mask) (DecoderCell.B03 D pad_id x d_mask)

/-- DecoderCell Block 5 (lines 309-317): cross-attention from
`layer_norms[3](B04_out)` to the encoder `memory` with `key_padding_mask =
e_mask`, then `B05_out += B04_out`. -/
def DecoderCell.B05 (D : DecNets) (pad_id : ℚ) (x memory : Tensor3)
    (e_mask d_mask : BMask) : Tensor3 :=
  let n := D.ln3 (DecoderCell.B04 D pad_id x d_mask)
  addT (D.src_attn n memory memory e_mask) (DecoderCell.B04 D pad_id x d_mask)

/-- Model of `DecoderCell.forward` (evolved.py lines 257-324), Blocks 6-7:
`out = layer_norms[4](B05_out); out = self.pff(out) + B05_out`. -/
def DecoderCell.forward (D : DecNets) (pad_id : ℚ) (x memory : Tensor3)
    (e_mask d_mask : BMask) : Tensor3 :=
  let b5 := DecoderCell.B05 D pad_id x memory e_mask d_mask
  addT (D.pff (D.ln4 b5)) b5

/-- A `(1, 1, 1)` tensor of zeros, used to build concrete instantiations. -/
def t111 : Tensor3 := [ [ [ 0 ] ] ]

/-- A `(1, 1, 2)` tensor of zeros. -/
def t112 : Tensor3 := [ [ [ 0, 0 ] ] ]

/-- A `(1, 1, 4)` tensor of zeros. -/
def t114 : Tensor3 := [ [ [ 0, 0, 0, 0 ] ] ]

/-- A `(1, 2, 1)` tensor of zeros. -/
def t121 : Tensor3 := [ [ [ 0 ], [ 0 ] ] ]

/-- A `(1, 4, 1)` tensor of zeros. -/
def t141 : Tensor3 := [ [ [ 0 ], [ 0 ], [ 0 ], [ 0 ] ] ]

/-- Trivial encoder used to evaluate `EvolvedTransformer.forward` concretely. -/
def trivEncoder : List (List ℤ) → BMask → Tensor3 := fun _ _ => []

/-- Trivial decoder used to evaluate `EvolvedTransformer.forward` concretely. -/
def trivDecoder : List (List ℤ) → Tensor3 → BMask → BMask → Tensor3 := fun _ _ _ _ => []

/-- Trivial generator used to evaluate `EvolvedTransformer.forward` concretely. -/
def trivGenerator : Tensor3 → Tensor3 := fun t => t

/-- Trivial criterion used to evaluate `EvolvedTransformer.forward` concretely. -/
def trivCriterion : Tensor3 → List (List ℤ) → ℚ := fun _ _ => 0

/-- Concrete `EncoderCell` submodules with identity norms, a width-2 left
branch and a width-1 right branch, for evaluating the padding step.  Field
order: glu, attention, mid_layer_norm, ln0, ln1, ln2, ln3, left_net,
right_net, sep_conv, pff. -/
def encNetsPad : EncNets :=
  EncNets.mk (fun t => t) (fun q _ _ _ => q) (fun t => t)
    (fun t => t) (fun t => t) (fun t => t) (fun t => t)
    (fun _ => [ [ [ 1, 2 ] ] ]) (fun _ => [ [ [ 3 ] ] ]) (fun t => t) (fun t => t)

/-- Concrete constant-output `EncoderCell` submodules realizing the shape
contract at `b = s = 1`, `hidden_dim = 2`, `pff_dim = 1`.  Field order as in
`EncNets`. -/
def encNetsConst : EncNets :=
  EncNets.mk (fun _ => t112) (fun _ _ _ _ => t112) (fun _ => t111)
    (fun _ => t112) (fun _ => t112) (fun _ => t112) (fun _ => t112)
    (fun _ => t111) (fun _ => t111) (fun _ => t111) (fun _ => t112)

/-- Concrete constant-output `DecoderCell` submodules realizing the shape
contract at `b = s = 1`, `hidden_dim = 2`.  Field order: mid_layer_norm,
ln0, ln1, ln2, ln3, ln4, left_attn, right_attn, self_attn, src_attn,
left_net, right_net, sep_conv, pff. -/
def decNetsConst : DecNets :=
  DecNets.mk (fun _ => t114)
    (fun _ => t112) (fun _ => t112) (fun _ => t112) (fun _ => t112) (fun _ => t112)
    (fun _ _ _ _ => t112) (fun _ _ _ _ => t112) (fun _ _ _ _ => t112) (fun _ _ _ _ => t112)
    (fun _ => t141) (fun _ => t111) (fun _ => t121) (fun _ => t112)

/-- A concrete `(1, 1)` boolean mask. -/
def mask11 : BMask := [ [ false ] ]

/-- Concrete convolution weight of shape `(2, 1, 3)` for `GatedConvolution`
at `hidden_dim = 1`. -/
def gluWeight : List Mat := [ [ [ 1, 1, 1 ] ], [ [ 0, 1, 0 ] ] ]

/-- Concrete convolution bias of length 2. -/
def gluBias : Vec := [ 0, 0 ]

/-- Concrete dropout instance (adds 1 to every entry), distinguishing a
pipeline that applies dropout once from one that applies it twice. -/
def dropAddOne : Tensor3 → Tensor3 :=
  fun t => t.map (List.map (List.map fun q => q + 1))

/-- Concrete embedding table sending every token id to `[0]`. -/
def tokTableZero : ℤ → Vec := fun _ => [ 0 ]

/-- Concrete positional table with a single zero row. -/
def peZero : Mat := [ [ 0 ] ]

lemma mem_zipWith_pred {α β γ : Type} (f : α → β → γ) (P : α → Prop) (Q : β → Prop)
    (R : γ → Prop) (h : ∀ u v, P u → Q v → R (f u v)) :
    ∀ (l₁ : List α) (l₂ : List β), (∀ u ∈ l₁, P u) → (∀ v ∈ l₂, Q v) →
      ∀ z ∈ List.zipWith f l₁ l₂, R z := by
  intro l₁
  induction l₁ with
  | nil => intro l₂ _ _ z hz; simp at hz
  | cons a l ih =>
    intro l₂ h₁ h₂ z hz
    cases l₂ with
    | nil => simp at hz
    | cons b m =>
      simp only [List.zipWith_cons_cons, List.mem_cons] at hz
      rcases hz with rfl | hz
      · exact h a b (h₁ a (by simp)) (h₂ b (by simp))
      · exact ih m (fun u hu => h₁ u (by simp [hu])) (fun v hv => h₂ v (by simp [hv])) z hz

lemma map2T_shape {f : ℚ → ℚ → ℚ} {a c : Tensor3} {b s d : ℕ}
    (ha : HasShape3 a b s d) (hc : HasShape3 c b s d) :
    HasShape3 (map2T f a c) b s d := by
  obtain ⟨hal, ham⟩ := ha
  obtain ⟨hcl, hcm⟩ := hc
  constructor
  · simp [map2T, List.length_zipWith, hal, hcl]
  · refine mem_zipWith_pred _ (fun m => MatShape m s d) (fun m => MatShape m s d) _ ?_ a c ham hcm
    intro m1 m2 ⟨h1l, h1r⟩ ⟨h2l, h2r⟩
    constructor
    · simp [List.length_zipWith, h1l, h2l]
    · refine mem_zipWith_pred _ (fun r : Vec => r.length = d) (fun r : Vec => r.length = d) _
        ?_ m1 m2 h1r h2r
      intro r1 r2 hr1 hr2
      simp [List.length_zipWith, hr1, hr2]

lemma mapMats_shape {g : Mat → Mat} {t : Tensor3} {b s d s2 d2 : ℕ}
    (hg : ∀ m, MatShape m s d → MatShape (g m) s2 d2) (ht : HasShape3 t b s d) :
    HasShape3 (t.map g) b s2 d2 := by
  obtain ⟨hl, hm⟩ := ht
  refine ⟨by simp [hl], ?_⟩
  intro m hmem
  obtain ⟨m0, hm0, rfl⟩ := List.mem_map.mp hmem
  exact hg m0 (hm m0 hm0)

lemma mapRows_shape {f : Vec → Vec} {t : Tensor3} {b s d d2 : ℕ}
    (hf : ∀ r : Vec, r.length = d → (f r).length = d2) (ht : HasShape3 t b s d) :
    HasShape3 (t.map (List.map f)) b s d2 := by
  refine mapMats_shape ?_ ht
  intro m ⟨hml, hmr⟩
  refine ⟨by simp [hml], ?_⟩
  intro r hr
  obtain ⟨r0, hr0, rfl⟩ := List.mem_map.mp hr
  exact hf r0 (hmr r0 hr0)

lemma matShape_head_length {m : Mat} {s d : ℕ} (hm : MatShape m s d) (hs : 1 ≤ s) :
    (m.headD []).length = d := by
  obtain ⟨hl, hr⟩ := hm
  cases m with
  | nil => simp at hl; omega
  | cons r rs => exact hr r (by simp)

lemma transpose12_shape {t : Tensor3} {b s d : ℕ} (ht : HasShape3 t b s d) (hs : 1 ≤ s) :
    HasShape3 (transpose12 t) b d s := by
  obtain ⟨hl, hm⟩ := ht
  refine ⟨by simp [transpose12, hl], ?_⟩
  intro m hmem
  obtain ⟨m0, hm0, rfl⟩ := List.mem_map.mp hmem
  have hhead : ((m0.head?).getD ([] : Vec)).length = d := by
    simpa using matShape_head_length (hm m0 hm0) hs
  constructor
  · simp [hhead]
  · intro r hr
    obtain ⟨j, _, rfl⟩ := List.mem_map.mp hr
    simp [(hm m0 hm0).1]

lemma dimLast_of_shape {t : Tensor3} {b s d : ℕ} (ht : HasShape3 t b s d)
    (hb : 1 ≤ b) (hs : 1 ≤ s) : dimLast t = d := by
  obtain ⟨hl, hm⟩ := ht
  cases t with
  | nil => simp at hl; omega
  | cons m ms =>
    have := matShape_head_length (hm m (by simp)) hs
    simpa [dimLast] using this

lemma padLast_shape {t : Tensor3} {b s w : ℕ} {v : ℚ} (ht : HasShape3 t b s w) (k : ℕ) :
    HasShape3 (padLast t (k : ℤ) v) b s (w + k) := by
  unfold padLast
  rw [if_pos (by positivity)]
  refine mapRows_shape ?_ ht
  intro r hr
  simp [hr]

lemma padLast_getD {t : Tensor3} {b s w : ℕ} {v : ℚ} {k : ℤ}
    (ht : HasShape3 t b s w) (hk : 0 ≤ k) :
    ∀ m ∈ padLast t k v, ∀ r ∈ m, ∀ i, w ≤ i → i < r.length → r.getD i 0 = v := by
  intro m hm r hr i hwi hir
  unfold padLast at hm
  rw [if_pos hk] at hm
  obtain ⟨m0, hm0, rfl⟩ := List.mem_map.mp hm
  obtain ⟨r0, hr0, rfl⟩ := List.mem_map.mp hr
  have hr0len : r0.length = w := (ht.2 m0 hm0).2 r0 hr0
  rw [List.getD_append_right _ _ _ _ (by omega)]
  simp only [List.length_append, List.length_replicate] at hir
  rw [List.getD_eq_getElem?_getD, List.getElem?_replicate, if_pos (by omega)]
  rfl

lemma conv1d_shape {w : List Mat} {bias : Vec} {K p : ℕ} {x : Mat} {co ci L : ℕ}
    (hw : w.length = co) (hb : bias.length = co) (hx : MatShape x ci L) (hci : 1 ≤ ci) :
    MatShape (conv1d w bias K p x) co (L + 2 * p + 1 - K) := by
  have hhead : ((x.head?).getD ([] : Vec)).length = L := by
    simpa using matShape_head_length hx hci
  constructor
  · simp [conv1d, List.length_zip, hw, hb]
  · intro r hr
    obtain ⟨cb, _, rfl⟩ := List.mem_map.mp hr
    simp [hhead]

lemma addT_shape {a c : Tensor3} {b s d : ℕ}
    (ha : HasShape3 a b s d) (hc : HasShape3 c b s d) : HasShape3 (addT a c) b s d :=
  map2T_shape ha hc

lemma mulT_shape {a c : Tensor3} {b s d : ℕ}
    (ha : HasShape3 a b s d) (hc : HasShape3 c b s d) : HasShape3 (mulT a c) b s d :=
  map2T_shape ha hc

/-- C10: for every input pair and any encoder, decoder, generator and
criterion, `EvolvedTransformer.forward` fails before the encoder is invoked:
`shift_y` returns `None`, the tuple unpacking `y, label = self.shift_y(y)`
raises `TypeError`, and the result is this error — independent of the encoder
and of the criterion, so no loss value is ever produced. -/
theorem evolvedTransformer_forward_always_raises
    (encoder : List (List ℤ) → BMask → Tensor3)
    (decoder : List (List ℤ) → Tensor3 → BMask → BMask → Tensor3)
    (generator : Tensor3 → Tensor3) (criterion : Tensor3 → List (List ℤ) → ℚ)
    (x y : List (List ℤ)) :
    shift_y y = none ∧
      EvolvedTransformer.forward encoder decoder generator criterion x y =
        Except.error unpackNoneTypeErrorMsg :=
  ⟨rfl, rfl⟩

/-- C1: contrary to the claimed forward contract, `EvolvedTransformer.forward`
on the valid input pair `source_ids = [[1, 2, 3]]`, `target_ids =
[[5, 6, 7, 8, 9]]` does not return logits of shape `(1, 4, vocab_size)` and a
nonnegative loss: it raises `TypeError` while unpacking the `None` returned by
`shift_y`. -/
theorem evolvedTransformer_forward_raises_at_example :
    EvolvedTransformer.forward trivEncoder trivDecoder trivGenerator trivCriterion
      [ [ 1, 2, 3 ] ] [ [ 5, 6, 7, 8, 9 ] ] = Except.error unpackNoneTypeErrorMsg :=
  rfl

/-- C2: contrary to the claim, on the target sequence `[[5, 6, 7, 8, 9]]` the
shift step `shift_y` does not return the pair `([[5, 6, 7, 8]],
[[6, 7, 8, 9]])`: its body is a bare `return`, so it returns `None`. -/
theorem shift_y_none_at_example :
    shift_y [ [ 5, 6, 7, 8, 9 ] ] = none :=
  rfl

/-- C3: contrary to the claim, `pad_mask` on the integer tensor
`[[0, 1, 0, 2]]` does not return a boolean mask marking the positions equal
to `pad_id`: the source compares the tensor against the bound method
`self.pad_mask` instead of `self.pad_id`, which raises `TypeError`. -/
theorem pad_mask_raises_at_example :
    pad_mask [ [ 0, 1, 0, 2 ] ] = Except.error padMaskTypeErrorMsg :=
  rfl

/-- C4: contrary to the claim, `dec_mask` on a length-4 decoder input does not
return a 4-by-4 causal mask: the source leaves `mask = None` and calls
`None.to(device)`, which raises `AttributeError`. -/
theorem dec_mask_raises_at_example :
    dec_mask [ [ 5, 6, 7, 8 ] ] = Except.error decMaskAttributeErrorMsg :=
  rfl

/-- C5: contrary to the claim, `EvolvedEncoder.forward` with at least one
encoder cell never applies the cells to the embedded input: each cell is
invoked as `cell(x, src_key_padding_mask=e_mask)`, but `EncoderCell.forward`
accepts only the parameters `x` and `e_mask`, so the call raises `TypeError`
at the first cell, whatever the input and mask. -/
theorem evolvedEncoder_forward_kwarg_type_error
    (embeddings : List (List ℤ) → Tensor3) (cell : Tensor3 → BMask → Tensor3)
    (cells : List (Tensor3 → BMask → Tensor3)) (x : List (List ℤ)) (e_mask : BMask) :
    EvolvedEncoder.forward embeddings (cell :: cells) x e_mask =
      Except.error encoderKwargTypeErrorMsg :=
  rfl

/-- C6 counterexample: with a concrete dropout (adding 1 elementwise), a zero
embedding table, a zero positional row and an identity projection, the output
of `Embeddings.forward` on token ids `[[0]]` differs from the single-dropout
pipeline `dropout(project(lookup * scale + positional_encoding))` claimed by
the specification: the positional-encoding submodule applies its own dropout
first, so dropout is applied twice. -/
theorem embeddings_single_dropout_counterexample :
    Embeddings.forward tokTableZero 1 dropAddOne dropAddOne peZero true (fun t => t)
        [ [ 0 ] ] ≠
      dropAddOne ((fun t => t) (addPE peZero (scaleT 1 (tokLookup tokTableZero [ [ 0 ] ])))) := by
  simp [Embeddings.forward, PositionalEncoding.forward, addPE, scaleT, tokLookup,
    dropAddOne, peZero, tokTableZero, dim1]

/-- C6 amended: in `Embeddings.forward` dropout is applied twice, not once —
once by the `PositionalEncoding` submodule to `lookup(token_ids) * sqrt(emb_dim)
+ positional_encoding`, and once more by `Embeddings` after the optional affine
projection: the output is `dropout(project(pos_dropout(lookup * scale + pe)))`
when `emb_dim != hidden_dim`, and `dropout(pos_dropout(lookup * scale + pe))`
otherwise. -/
theorem embeddings_forward_double_dropout (tok_emb : ℤ → Vec) (scale : ℚ)
    (pos_dropout dropout : Tensor3 → Tensor3) (pe : Mat) (use_fc_layer : Bool)
    (fc : Tensor3 → Tensor3) (x : List (List ℤ)) :
    Embeddings.forward tok_emb scale pos_dropout dropout pe use_fc_layer fc x =
      if use_fc_layer then
        dropout (fc (pos_dropout (addPE pe (scaleT scale (tokLookup tok_emb x)))))
      else dropout (pos_dropout (addPE pe (scaleT scale (tokLookup tok_emb x)))) := by
  cases use_fc_layer <;> rfl

/-- C7: wherever `EncoderCell.forward` and `DecoderCell.forward` pad a
narrower branch up to the wider branch width before summing — the encoder
Block 2 right branch, the encoder Block 3 separable-convolution output, and
the decoder Block 2 right branch — every entry of the padded region equals
the configured `pad_id`, for every input tensor and all submodules. -/
theorem cell_padding_uses_pad_id (pad_id : ℚ) :
    (∀ (N : EncNets) (x : Tensor3) (b s w : ℕ), 1 ≤ b → 1 ≤ s →
      HasShape3 (EncoderCell.right_raw N x) b s w →
      w ≤ dimLast (EncoderCell.left_out N x) →
      ∀ m ∈ EncoderCell.right_padded N pad_id x, ∀ r ∈ m, ∀ i, w ≤ i → i < r.length →
        r.getD i 0 = pad_id) ∧
    (∀ (N : EncNets) (x : Tensor3) (b s w : ℕ), 1 ≤ b → 1 ≤ s →
      HasShape3 (EncoderCell.B03_conv N pad_id x) b s w →
      w ≤ dimLast (EncoderCell.B01 N x) →
      ∀ m ∈ EncoderCell.B03_padded N pad_id x, ∀ r ∈ m, ∀ i, w ≤ i → i < r.length →
        r.getD i 0 = pad_id) ∧
    (∀ (D : DecNets) (x : Tensor3) (d_mask : BMask) (b s w : ℕ), 1 ≤ b → 1 ≤ s →
      HasShape3 (DecoderCell.right_raw D x d_mask) b s w →
      w ≤ dimLast (DecoderCell.left_out D x d_mask) →
      ∀ m ∈ DecoderCell.right_padded D pad_id x d_mask, ∀ r ∈ m, ∀ i, w ≤ i → i < r.length →
        r.getD i 0 = pad_id) := by
  refine ⟨?_, ?_, ?_⟩
  · intro N x b s w hb hs hsh hle
    have hw : dimLast (EncoderCell.right_raw N x) = w := dimLast_of_shape hsh hb hs
    have hk : (0 : ℤ) ≤
        (dimLast (EncoderCell.left_out N x) : ℤ) - (dimLast (EncoderCell.right_raw N x) : ℤ) := by
      omega
    unfold EncoderCell.right_padded
    exact padLast_getD hsh hk
  · intro N x b s w hb hs hsh hle
    have hw : dimLast (EncoderCell.B03_conv N pad_id x) = w := dimLast_of_shape hsh hb hs
    have hk : (0 : ℤ) ≤
        (dimLast (EncoderCell.B01 N x) : ℤ) - (dimLast (EncoderCell.B03_conv N pad_id x) : ℤ) := by
      omega
    unfold EncoderCell.B03_padded
    exact padLast_getD hsh hk
  · intro D x d_mask b s w hb hs hsh hle
    have hw : dimLast (DecoderCell.right_raw D x d_mask) = w := dimLast_of_shape hsh hb hs
    have hk : (0 : ℤ) ≤
        (dimLast (DecoderCell.left_out D x d_mask) : ℤ) -
          (dimLast (DecoderCell.right_raw D x d_mask) : ℤ) := by
      omega
    unfold DecoderCell.right_padded
    exact padLast_getD hsh hk

/-- Witness: on a concrete encoder cell whose left branch has width 2 and
whose right branch has width 1, with `pad_id = 7`, the entry appended by the
Block 2 padding step equals 7. -/
theorem cell_padding_uses_pad_id_witness :
    List.getD [ (3 : ℚ), 7 ] 1 0 = 7 :=
  (cell_padding_uses_pad_id 7).1 encNetsPad t111 1 1 1 (by decide) (by decide)
    (by decide) (by decide) [ [ (3 : ℚ), 7 ] ] (by decide) [ (3 : ℚ), 7 ] (by decide) 1
    (by decide) (by decide)

/-- C8: for every input of shape `(batch, seq_len, hidden_dim)` and every
well-formed convolution (weight `(2 * hidden_dim, hidden_dim, 3)` with
kernel 3 and padding 1, bias of length `2 * hidden_dim`), the convolution
inside `GatedConvolution.forward` produces `2 * hidden_dim` channels at the
same sequence length, the two split halves `value` and `gate` each have width
`hidden_dim`, the output equals `value * sigmoid(gate)`, and the output shape
equals the input shape. -/
theorem gatedConvolution_forward_shape (w : List Mat) (bias : Vec) (sigmoid : ℚ → ℚ)
    (x : Tensor3) (b s h : ℕ) (hb : 1 ≤ b) (hs : 1 ≤ s) (hh : 1 ≤ h)
    (hx : HasShape3 x b s h) (hw : w.length = 2 * h) (hbias : bias.length = 2 * h) :
    HasShape3 (GatedConvolution.convOut w bias x) b s (2 * h) ∧
    GatedConvolution.forward w bias sigmoid x =
      mulT (GatedConvolution.value w bias x)
        ((GatedConvolution.gate w bias x).map (List.map (List.map sigmoid))) ∧
    HasShape3 (GatedConvolution.value w bias x) b s h ∧
    HasShape3 (GatedConvolution.gate w bias x) b s h ∧
    HasShape3 (GatedConvolution.forward w bias sigmoid x) b s h := by
  have h1 : HasShape3 (transpose12 x) b h s := transpose12_shape hx hs
  have h2 : HasShape3 ((transpose12 x).map (conv1d w bias 3 1)) b (2 * h) s := by
    refine mapMats_shape ?_ h1
    intro m hm
    have hc := conv1d_shape (K := 3) (p := 1) hw hbias hm hh
    rwa [show s + 2 * 1 + 1 - 3 = s from by omega] at hc
  have h3 : HasShape3 (GatedConvolution.convOut w bias x) b s (2 * h) :=
    transpose12_shape h2 (by omega)
  have hdim : dimLast (GatedConvolution.convOut w bias x) = 2 * h :=
    dimLast_of_shape h3 hb hs
  have hval : HasShape3 (GatedConvolution.value w bias x) b s h := by
    unfold GatedConvolution.value
    refine mapRows_shape ?_ h3
    intro r hr
    rw [hdim]
    simp only [List.length_take, hr]
    omega
  have hgate : HasShape3 (GatedConvolution.gate w bias x) b s h := by
    unfold GatedConvolution.gate
    refine mapRows_shape ?_ h3
    intro r hr
    rw [hdim]
    simp only [List.length_take, List.length_drop, hr]
    omega
  have hgs : HasShape3 ((GatedConvolution.gate w bias x).map (List.map (List.map sigmoid)))
      b s h := by
    refine mapRows_shape ?_ hgate
    intro r hr
    simp [hr]
  exact ⟨h3, rfl, hval, hgate, mulT_shape hval hgs⟩

/-- Witness: `GatedConvolution.forward` with a concrete weight of shape
`(2, 1, 3)`, zero bias and identity sigmoid preserves the shape of the
concrete `(1, 1, 1)` input. -/
theorem gatedConvolution_forward_shape_witness :
    HasShape3 (GatedConvolution.forward gluWeight gluBias (fun q => q) t111) 1 1 1 :=
  (gatedConvolution_forward_shape gluWeight gluBias (fun q => q) t111 1 1 1 (by decide)
    (by decide) (by decide) (by decide) (by decide) (by decide)).2.2.2.2

/-- C9: for every input of shape `(batch, seq_len, hidden_dim)` and every
valid configuration (`n_heads` dividing both `hidden_dim` and
`2 * hidden_dim`, `pff_dim ≥ hidden_dim / 2`), and all submodules realizing
their configured channel contracts (`left_net : hidden → pff`, `right_net :
hidden → hidden / 2`, `sep_conv : pff → hidden / 2` in the encoder and
`left_net : hidden → 2 * hidden`, `right_net : hidden → hidden / 2`,
`sep_conv : 2 * hidden → hidden` in the decoder, layer norms and attention
shape-preserving), `EncoderCell.forward` and `DecoderCell.forward` return a
tensor of the input shape `(batch, seq_len, hidden_dim)`: the last dimension
is exactly `hidden_dim` at every cell boundary even though intermediate
branches use `2 * hidden_dim`, `pff_dim` and `hidden_dim / 2` widths
reconciled by explicit padding. -/
theorem cells_preserve_shape
    (N : EncNets) (D : DecNets) (pad_id : ℚ) (x xd memory : Tensor3)
    (e_mask d_mask : BMask) (b s sm h p nh : ℕ)
    (hb : 1 ≤ b) (hs : 1 ≤ s) (hh : 2 ≤ h) (hp : h / 2 ≤ p)
    (hnh : nh ∣ h) (hnh2 : nh ∣ 2 * h)
    (hx : HasShape3 x b s h) (hxd : HasShape3 xd b s h) (hmem : HasShape3 memory b sm h)
    (hglu : ∀ t, HasShape3 t b s h → HasShape3 (N.glu t) b s h)
    (hln0 : ∀ t, HasShape3 t b s h → HasShape3 (N.ln0 t) b s h)
    (hln1 : ∀ t, HasShape3 t b s h → HasShape3 (N.ln1 t) b s h)
    (hln2 : ∀ t, HasShape3 t b s h → HasShape3 (N.ln2 t) b s h)
    (hln3 : ∀ t, HasShape3 t b s h → HasShape3 (N.ln3 t) b s h)
    (hmid : ∀ t, HasShape3 t b s p → HasShape3 (N.mid_layer_norm t) b s p)
    (hleft : ∀ t, HasShape3 t b s h → HasShape3 (N.left_net t) b s p)
    (hright : ∀ t, HasShape3 t b h s → HasShape3 (N.right_net t) b (h / 2) s)
    (hsep : ∀ t, HasShape3 t b p s → HasShape3 (N.sep_conv t) b (h / 2) s)
    (hattn : ∀ t, HasShape3 t b s h → HasShape3 (N.attention t t t e_mask) b s h)
    (hpff : ∀ t, HasShape3 t b s h → HasShape3 (N.pff t) b s h)
    (hdln0 : ∀ t, HasShape3 t b s h → HasShape3 (D.ln0 t) b s h)
    (hdln1 : ∀ t, HasShape3 t b s h → HasShape3 (D.ln1 t) b s h)
    (hdln2 : ∀ t, HasShape3 t b s h → HasShape3 (D.ln2 t) b s h)
    (hdln3 : ∀ t, HasShape3 t b s h → HasShape3 (D.ln3 t) b s h)
    (hdln4 : ∀ t, HasShape3 t b s h → HasShape3 (D.ln4 t) b s h)
    (hdmid : ∀ t, HasShape3 t b s (2 * h) → HasShape3 (D.mid_layer_norm t) b s (2 * h))
    (hdlattn : ∀ t, HasShape3 t b s h → HasShape3 (D.left_attn t t t d_mask) b s h)
    (hdrattn : ∀ t, HasShape3 t b s h → HasShape3 (D.right_attn t t t d_mask) b s h)
    (hdsattn : ∀ t, HasShape3 t b s h → HasShape3 (D.self_attn t t t d_mask) b s h)
    (hdsrc : ∀ t, HasShape3 t b s h → HasShape3 (D.src_attn t memory memory e_mask) b s h)
    (hdleft : ∀ t, HasShape3 t b h s → HasShape3 (D.left_net t) b (2 * h) s)
    (hdright : ∀ t, HasShape3 t b h s → HasShape3 (D.right_net t) b (h / 2) s)
    (hdsep : ∀ t, HasShape3 t b (2 * h) s → HasShape3 (D.sep_conv t) b h s)
    (hdpff : ∀ t, HasShape3 t b s h → HasShape3 (D.pff t) b s h) :
    HasShape3 (EncoderCell.forward N pad_id x e_mask) b s h ∧
      HasShape3 (DecoderCell.forward D pad_id xd memory e_mask d_mask) b s h := by
  constructor
  · -- Encoder cell
    have e1 : HasShape3 (EncoderCell.B01 N x) b s h := hglu _ (hln0 _ hx)
    have e2 : HasShape3 (EncoderCell.B02_normed N x) b s h := hln1 _ e1
    have eL : HasShape3 (EncoderCell.left_out N x) b s p := hleft _ e2
    have eRn : HasShape3 (N.right_net (transpose12 (EncoderCell.B02_normed N x)))
        b (h / 2) s := hright _ (transpose12_shape e2 hs)
    have eR : HasShape3 (EncoderCell.right_raw N x) b s (h / 2) :=
      transpose12_shape eRn (by omega)
    have hdL : dimLast (EncoderCell.left_out N x) = p := dimLast_of_shape eL hb hs
    have hdR : dimLast (EncoderCell.right_raw N x) = h / 2 := dimLast_of_shape eR hb hs
    have eRp : HasShape3 (EncoderCell.right_padded N pad_id x) b s p := by
      unfold EncoderCell.right_padded
      rw [hdL, hdR, show (p : ℤ) - ((h / 2 : ℕ) : ℤ) = ((p - h / 2 : ℕ) : ℤ) from by omega]
      have hps := padLast_shape (v := pad_id) eR (p - h / 2)
      rwa [show h / 2 + (p - h / 2) = p from by omega] at hps
    have eB2 : HasShape3 (EncoderCell.B02 N pad_id x) b s p := addT_shape eL eRp
    have e3s : HasShape3 (N.sep_conv (transpose12 (N.mid_layer_norm (EncoderCell.B02 N pad_id x))))
        b (h / 2) s := hsep _ (transpose12_shape (hmid _ eB2) hs)
    have e3c : HasShape3 (EncoderCell.B03_conv N pad_id x) b s (h / 2) :=
      transpose12_shape e3s (by omega)
    have hdB1 : dimLast (EncoderCell.B01 N x) = h := dimLast_of_shape e1 hb hs
    have hdC : dimLast (EncoderCell.B03_conv N pad_id x) = h / 2 := dimLast_of_shape e3c hb hs
    have e3p : HasShape3 (EncoderCell.B03_padded N pad_id x) b s h := by
      unfold EncoderCell.B03_padded
      rw [hdB1, hdC, show (h : ℤ) - ((h / 2 : ℕ) : ℤ) = ((h - h / 2 : ℕ) : ℤ) from by omega]
      have hps := padLast_shape (v := pad_id) e3c (h - h / 2)
      rwa [show h / 2 + (h - h / 2) = h from by omega] at hps
    have e3 : HasShape3 (EncoderCell.B03 N pad_id x) b s h := addT_shape e3p e1
    have e4n : HasShape3 (N.ln2 (EncoderCell.B03 N pad_id x)) b s h := hln2 _ e3
    have e4 : HasShape3 (EncoderCell.B04 N pad_id x e_mask) b s h :=
      addT_shape e4n (hattn _ e4n)
    exact addT_shape (hpff _ (hln3 _ e4)) e4
  · -- Decoder cell
    have dn : HasShape3 (D.ln0 xd) b s h := hdln0 _ hxd
    have d1 : HasShape3 (DecoderCell.B01 D xd d_mask) b s h :=
      addT_shape (hdlattn _ dn) (hdrattn _ dn)
    have d2 : HasShape3 (DecoderCell.B02_normed D xd d_mask) b s h := hdln1 _ d1
    have dLt : HasShape3 (transpose12 (DecoderCell.B02_normed D xd d_mask)) b h s :=
      transpose12_shape d2 hs
    have dL : HasShape3 (DecoderCell.left_out D xd d_mask) b s (2 * h) :=
      transpose12_shape (hdleft _ dLt) (by omega)
    have dR : HasShape3 (DecoderCell.right_raw D xd d_mask) b s (h / 2) :=
      transpose12_shape (hdright _ dLt) (by omega)
    have hdLd : dimLast (DecoderCell.left_out D xd d_mask) = 2 * h := dimLast_of_shape dL hb hs
    have hdRd : dimLast (DecoderCell.right_raw D xd d_mask) = h / 2 := dimLast_of_shape dR hb hs
    have dRp : HasShape3 (DecoderCell.right_padded D pad_id xd d_mask) b s (2 * h) := by
      unfold DecoderCell.right_padded
      rw [hdLd, hdRd,
        show ((2 * h : ℕ) : ℤ) - ((h / 2 : ℕ) : ℤ) = ((2 * h - h / 2 : ℕ) : ℤ) from by omega]
      have hps := padLast_shape (v := pad_id) dR (2 * h - h / 2)
      rwa [show h / 2 + (2 * h - h / 2) = 2 * h from by omega] at hps
    have dB2 : HasShape3 (DecoderCell.B02 D pad_id xd d_mask) b s (2 * h) := addT_shape dL dRp
    have d3s : HasShape3
        (D.sep_conv (transpose12 (D.mid_layer_norm (DecoderCell.B02 D pad_id xd d_mask))))
        b h s := hdsep _ (transpose12_shape (hdmid _ dB2) hs)
    have d3 : HasShape3 (DecoderCell.B03 D pad_id xd d_mask) b s h :=
      addT_shape (transpose12_shape d3s (by omega)) d1
    have d4n : HasShape3 (D.ln2 (DecoderCell.B03 D pad_id xd d_mask)) b s h := hdln2 _ d3
    have d4 : HasShape3 (DecoderCell.B04 D pad_id xd d_mask) b s h :=
      addT_shape (hdsattn _ d4n) d3
    have d5n : HasShape3 (D.ln3 (DecoderCell.B04 D pad_id xd d_mask)) b s h := hdln3 _ d4
    have d5 : HasShape3 (DecoderCell.B05 D pad_id xd memory e_mask d_mask) b s h :=
      addT_shape (hdsrc _ d5n) d4
    exact addT_shape (hdpff _ (hdln4 _ d5)) d5

/-- Witness: with concrete constant submodules realizing the channel
contracts at `batch = seq_len = 1`, `hidden_dim = 2`, `pff_dim = 1`,
`n_heads = 1`, both cells map the concrete `(1, 1, 2)` input to a
`(1, 1, 2)` output. -/
theorem cells_preserve_shape_witness :
    HasShape3 (EncoderCell.forward encNetsConst 7 t112 mask11) 1 1 2 ∧
      HasShape3 (DecoderCell.forward decNetsConst 7 t112 t112 mask11 mask11) 1 1 2 := by
  have h112 : HasShape3 t112 1 1 2 := by decide
  have h111 : HasShape3 t111 1 1 1 := by decide
  have h114 : HasShape3 t114 1 1 4 := by decide
  have h121 : HasShape3 t121 1 2 1 := by decide
  have h141 : HasShape3 t141 1 4 1 := by decide
  exact cells_preserve_shape encNetsConst decNetsConst 7 t112 t112 t112 mask11 mask11
    1 1 1 2 1 1 (by decide) (by decide) (by decide) (by decide) ⟨2, rfl⟩ ⟨4, rfl⟩
    h112 h112 h112
    (fun t h => h112) (fun t h => h112) (fun t h => h112) (fun t h => h112) (fun t h => h112)
    (fun t h => h111) (fun t h => h111) (fun t h => h111) (fun t h => h111)
    (fun t h => h112) (fun t h => h112)
    (fun t h => h112) (fun t h => h112) (fun t h => h112) (fun t h => h112) (fun t h => h112)
    (fun t h => h114)
    (fun t h => h112) (fun t h => h112) (fun t h => h112) (fun t h => h112)
    (fun t h => h141) (fun t h => h111) (fun t h => h121)
    (fun t h => h112)
